import Mathlib

/-!
Verification development for the CalendarTimeTracker repository.

The embedding covers the two core components:

* `calendar_store.py` — per-source event cache persistence and the
  reconciliation merge `update_event_store`.  A pandas `DataFrame` of events
  is modelled by `EventFrame`: the list of rows together with two flags
  recording whether the columns axis is non-empty (`hasCols`) and whether a
  `uid` column is present (`hasUid`); `pd.DataFrame()` built from an empty
  record list has no columns, hence `emptyFrame`.  The on-disk cache file for
  one source is modelled by `CacheFile`, whose constructors distinguish the
  outcomes `pd.read_csv` can have on it: file missing, zero size, raising
  `EmptyDataError` (the only exception the source catches), raising any other
  parse error (`corrupt`), or parsing to a frame.

* the time-apportionment loops of `show_duration_charts` in `app.py` at day
  granularity — the generated day periods (midnight to 23:59:59 of each day),
  `calculate_time_proportion`, and the record-emission loop guarded by
  `duration > 0`.  Instants are integer seconds; a calendar day `d` is the
  integer day index, so `pd.Timestamp(day)` is second `d * 86400`.  Hours are
  exact rationals, standing for the source's floats.
-/

/-- One event row: `uid`, `title`, `start` and `end` columns, with the two
instants as integer seconds since the epoch (`end` is a Lean keyword, hence
`end_`).  `duration_hours` is derived as `(end_ - start) / 3600` where
needed, exactly as `app.py` computes it. -/
structure Event where
  uid : String
  title : String
  start : Int
  end_ : Int
  deriving DecidableEq

/-- A pandas DataFrame of events.  `hasCols` records that the columns axis is
non-empty, `hasUid` that a `uid` column is present.  `df.empty` in pandas is
true when either axis has length zero, hence `EventFrame.isEmpty` below. -/
structure EventFrame where
  hasCols : Bool
  hasUid : Bool
  rows : List Event
  deriving DecidableEq

/-- pandas `df.empty`: true when the frame has no rows or no columns. -/
def EventFrame.isEmpty (df : EventFrame) : Bool :=
  df.rows.isEmpty || !df.hasCols

/-- The frame `pd.DataFrame()` (also the frame built from an empty record list): no
rows and no columns. -/
def emptyFrame : EventFrame := ⟨false, false, []⟩

/-- The state of one source's cache file, by the outcome reading it has:
missing, present with size zero, raising `pandas.errors.EmptyDataError`,
raising any other error (`ParserError`, `ValueError` from `parse_dates`,
decode errors — none of which `load_cached_events` catches), or parsing
to a frame. -/
inductive CacheFile where
  | missing
  | sizeZero
  | emptyData
  | corrupt
  | good (df : EventFrame)
  deriving DecidableEq

/-- Model of `load_cached_events` (calendar_store.py lines 15–22): a missing or
zero-size file yields `pd.DataFrame()`; `pd.read_csv` raising
`EmptyDataError` is caught and yields `pd.DataFrame()`; any other exception
propagates (`Except.error`); otherwise the parsed frame is returned. -/
def load_cached_events : CacheFile → Except Unit EventFrame
  | .missing => .ok emptyFrame
  | .sizeZero => .ok emptyFrame
  | .emptyData => .ok emptyFrame
  | .corrupt => .error ()
  | .good df => .ok df

/-- Model of `save_events_to_cache` (calendar_store.py lines 24–28): when
`df.empty or df.columns.empty` nothing is written and the file keeps its
previous state; otherwise the file now holds `df`. -/
def save_events_to_cache (df : EventFrame) (file : CacheFile) : CacheFile :=
  if df.rows.isEmpty || !df.hasCols then file else .good df

/-- Model of `update_event_store` (calendar_store.py lines 30–50) with the clock and
the cutoff made explicit: `now` is `datetime.now(timezone.utc)` in seconds,
`cutoff = now - timedelta(cutoff_days)`.  If the fresh frame has a `uid`
column, cached rows with `start < cutoff` whose uid is not among the fresh
uids are kept and the fresh rows appended; otherwise (the fallback branch)
the combined frame is just the fresh frame.  The combined frame is saved and
returned.  An exception from `load_cached_events` propagates. -/
def update_event_store (new_events_df : EventFrame) (file : CacheFile)
    (now : Int) (cutoff_days : Int) : Except Unit (EventFrame × CacheFile) :=
  match load_cached_events file with
  | .error e => .error e
  | .ok cached_df =>
    let cutoff : Int := now - cutoff_days * 86400
    let combined_df : EventFrame :=
      if new_events_df.hasUid then
        let old_df : List Event :=
          if !cached_df.isEmpty && cached_df.hasUid then
            let uids_to_keep : List String :=
              new_events_df.rows.map (fun e => e.uid)
            (cached_df.rows.filter (fun e => decide (e.start < cutoff))).filter
              (fun e => decide (e.uid ∉ uids_to_keep))
          else []
        ⟨true, true, old_df ++ new_events_df.rows⟩
      else new_events_df
    .ok (combined_df, save_events_to_cache combined_df file)

/-! ## Day-granularity apportionment (`show_duration_charts`, app.py) -/

/-- The instant `pd.Timestamp(day).tz_localize(tz)`: midnight opening day `d`. -/
def dayPeriodStart (d : Int) : Int := d * 86400

/-- The instant `pd.Timestamp(day).replace(hour=23, minute=59, second=59)`: the last
whole second of day `d`. -/
def dayPeriodEnd (d : Int) : Int := d * 86400 + 86399

/-- The `days` list built by the loop `while current_date <= end_date`
(app.py lines 364–368): every day index from `d0` to `d1` inclusive. -/
def daysInRange (d0 d1 : Int) : List Int :=
  (List.range (d1 - d0 + 1).toNat).map (fun (i : Nat) => d0 + (i : Int))

/-- Model of `calculate_time_proportion` (app.py lines 305–317): clamp the event to
the period; zero when the clamped interval is degenerate or inverted, else
the clamped length in hours. -/
def calculate_time_proportion (evStart evEnd periodStart periodEnd : Int) : ℚ :=
  let event_start := max evStart periodStart
  let event_end := min evEnd periodEnd
  if event_end ≤ event_start then 0
  else ((event_end - event_start : Int) : ℚ) / 3600

/-- The per-event slice of the day-granularity emission loop (app.py lines
373–385): for each day, a record `(day, duration)` is appended only when
`duration > 0`. -/
def dayRecords (evStart evEnd : Int) (days : List Int) : List (Int × ℚ) :=
  days.filterMap (fun d =>
    let duration :=
      calculate_time_proportion evStart evEnd (dayPeriodStart d) (dayPeriodEnd d)
    if 0 < duration then some (d, duration) else none)

/-- Sum of the emitted `overlap_hours` of one event over the day buckets. -/
def totalOverlapHours (evStart evEnd : Int) (days : List Int) : ℚ :=
  ((dayRecords evStart evEnd days).map Prod.snd).sum

/-- The day buckets as intervals `(period_start, period_end)`, one per day of
the window. -/
def dayBuckets (d0 d1 : Int) : List (Int × Int) :=
  (daysInRange d0 d1).map (fun d => (dayPeriodStart d, dayPeriodEnd d))

/-! ## Auxiliary predicates used by the claims -/

/-- The non-empty uids of a row list, with multiplicity. -/
def nonEmptyUids (l : List Event) : List String :=
  (l.map (fun e => e.uid)).filter (fun u => decide (u ≠ ""))

/-- The invariant of §3: no two events of the list share a non-empty uid. -/
def noDupUid (l : List Event) : Prop := (nonEmptyUids l).Nodup

instance (l : List Event) : Decidable (noDupUid l) := by
  unfold noDupUid; infer_instance

/-- How many rows of `l` carry uid `u`. -/
def countUid (l : List Event) (u : String) : Nat :=
  (l.filter (fun e => decide (e.uid = u))).length

/-! ## C1 — empty fetch -/

/-- Claim C1, counterexample: with a non-empty cached set and an empty fresh
fetch, `update_event_store` does not return the cached set — the frame it
returns is the empty fresh frame, whose rows differ from the cached rows. -/
theorem c1_counterexample :
    update_event_store emptyFrame
        (CacheFile.good ⟨true, true, [⟨"A", "t", 0, 3600⟩]⟩) 0 30 =
      Except.ok (emptyFrame, CacheFile.good ⟨true, true, [⟨"A", "t", 0, 3600⟩]⟩) ∧
    emptyFrame.rows ≠ [⟨"A", "t", 0, 3600⟩] := by
  constructor
  · rfl
  · decide

/-- Claim C1 (amended): reconciling an empty fresh fetch against a readable
cache leaves the persisted cache content unchanged, but the frame returned is
the empty fresh frame, not the cached set. -/
theorem c1_empty_fetch_preserves_disk (cdf : EventFrame) (now cutoff_days : Int) :
    update_event_store emptyFrame (CacheFile.good cdf) now cutoff_days =
      Except.ok (emptyFrame, CacheFile.good cdf) := rfl

/-! ## C9 — cache-read failure handling -/

/-- Claim C9: a missing, zero-size or `EmptyDataError` file is recovered as
an empty frame, but a file whose read raises any other error propagates the
exception out of `load_cached_events` — the claimed never-fails behaviour
does not hold on such corruption. -/
theorem c9_corrupt_read_raises :
    load_cached_events CacheFile.corrupt = Except.error () ∧
    load_cached_events CacheFile.missing = Except.ok emptyFrame ∧
    load_cached_events CacheFile.sizeZero = Except.ok emptyFrame ∧
    load_cached_events CacheFile.emptyData = Except.ok emptyFrame :=
  ⟨rfl, rfl, rfl, rfl⟩

/-! ## C10 — no write on empty merge result -/

/-- Claim C10: when the merged frame has no rows or no columns,
`save_events_to_cache` leaves the persisted cache file untouched. -/
theorem c10_no_write_on_empty (df : EventFrame) (file : CacheFile)
    (h : df.rows = [] ∨ df.hasCols = false) :
    save_events_to_cache df file = file := by
  rcases h with h | h <;> simp [save_events_to_cache, h]

/-- Witness for C10 at a concrete empty frame and file. -/
theorem c10_no_write_on_empty_witness :
    save_events_to_cache ⟨true, true, []⟩ CacheFile.missing = CacheFile.missing :=
  c10_no_write_on_empty ⟨true, true, []⟩ CacheFile.missing (Or.inl rfl)

/-! ## C3 — sources without uid -/

/-- Claim C3, counterexample: cache holds one event with `(start, end)` =
`(0, 3600)`; the uid-less fresh fetch holds one different event.  The union
deduplicated by `(start, end)` would have two rows, but the reconciled frame
has exactly one row — the cached event is discarded, not united. -/
theorem c3_counterexample :
    (update_event_store ⟨true, false, [⟨"", "new", 7200, 10800⟩]⟩
        (CacheFile.good ⟨true, false, [⟨"", "old", 0, 3600⟩]⟩) 0 30).map
        (fun p => p.1.rows.length) = Except.ok 1 ∧ (1 : Nat) ≠ 2 := by
  constructor
  · rfl
  · decide

/-- Claim C3 (amended): for a fresh frame without a `uid` column, the
fallback branch discards the cached set entirely — the reconciled frame is
exactly the fresh frame (no union, no `(start, end)` deduplication). -/
theorem c3_no_uid_returns_fresh (new_events_df cdf : EventFrame)
    (now cutoff_days : Int) (hu : new_events_df.hasUid = false) :
    update_event_store new_events_df (CacheFile.good cdf) now cutoff_days =
      Except.ok (new_events_df,
        save_events_to_cache new_events_df (CacheFile.good cdf)) := by
  simp [update_event_store, load_cached_events, hu]

/-- Witness for C3 at concrete frames. -/
theorem c3_no_uid_returns_fresh_witness :
    update_event_store ⟨true, false, [⟨"", "new", 7200, 10800⟩]⟩
        (CacheFile.good ⟨true, false, [⟨"", "old", 0, 3600⟩]⟩) 0 30 =
      Except.ok (⟨true, false, [⟨"", "new", 7200, 10800⟩]⟩,
        save_events_to_cache ⟨true, false, [⟨"", "new", 7200, 10800⟩]⟩
          (CacheFile.good ⟨true, false, [⟨"", "old", 0, 3600⟩]⟩)) :=
  c3_no_uid_returns_fresh _ _ 0 30 rfl

/-! ## C7 — zero-duration events -/

/-- Claim C7, counterexample: a zero-duration event at 10:00 of day 0, with
day 0 among the buckets, produces no apportionment record at all — not the
claimed single zero-hour record. -/
theorem c7_counterexample :
    dayRecords 36000 36000 [0] = [] ∧ (dayRecords 36000 36000 [0]).length ≠ 1 := by
  constructor
  · rfl
  · decide

/-- A degenerate event is clamped to a degenerate or inverted interval in
every period, so `calculate_time_proportion` returns 0. -/
theorem calculate_time_proportion_self (s ps pe : Int) :
    calculate_time_proportion s s ps pe = 0 := by
  unfold calculate_time_proportion
  have h : min s pe ≤ max s ps := le_trans (min_le_left _ _) (le_max_left _ _)
  simp [h]

/-- Claim C7 (amended): a zero-duration event (`start == end`) is filtered
out by the `duration > 0` guard and contributes no apportionment record to
any bucket. -/
theorem c7_zero_duration_emits_nothing (s : Int) (days : List Int) :
    dayRecords s s days = [] := by
  unfold dayRecords
  rw [List.filterMap_eq_nil_iff]
  intro d _
  simp [calculate_time_proportion_self]

/-! ## Characterization of the uid branch of `update_event_store` -/

/-- The cached rows `update_event_store` keeps when the fresh frame has a
`uid` column: those with `start < cutoff` whose uid is not among the fresh
uids, provided the cache is non-empty and itself has a `uid` column. -/
def oldKept (new_events_df cdf : EventFrame) (cutoff : Int) : List Event :=
  if !cdf.isEmpty && cdf.hasUid then
    (cdf.rows.filter (fun e => decide (e.start < cutoff))).filter
      (fun e => decide (e.uid ∉ new_events_df.rows.map (fun x => x.uid)))
  else []

theorem update_event_store_error (new_events_df : EventFrame) (file : CacheFile)
    (now cutoff_days : Int) (u : Unit)
    (hload : load_cached_events file = Except.error u) :
    update_event_store new_events_df file now cutoff_days = Except.error u := by
  unfold update_event_store
  rw [hload]

theorem update_event_store_uid_eq (new_events_df : EventFrame) (file : CacheFile)
    (cdf : EventFrame) (now cutoff_days : Int)
    (hload : load_cached_events file = Except.ok cdf)
    (hu : new_events_df.hasUid = true) :
    update_event_store new_events_df file now cutoff_days =
      Except.ok
        (⟨true, true,
            oldKept new_events_df cdf (now - cutoff_days * 86400) ++ new_events_df.rows⟩,
          save_events_to_cache
            ⟨true, true,
              oldKept new_events_df cdf (now - cutoff_days * 86400) ++ new_events_df.rows⟩
            file) := by
  unfold update_event_store
  rw [hload]
  simp [oldKept, hu]

theorem mem_oldKept {new_events_df cdf : EventFrame} {cutoff : Int} {x : Event}
    (hx : x ∈ oldKept new_events_df cdf cutoff) :
    x ∈ cdf.rows ∧ x.start < cutoff ∧
      x.uid ∉ new_events_df.rows.map (fun e => e.uid) := by
  unfold oldKept at hx
  by_cases hc : (!cdf.isEmpty && cdf.hasUid) = true
  · rw [if_pos hc] at hx
    simp only [List.mem_filter, decide_eq_true_eq] at hx
    exact ⟨hx.1.1, hx.1.2, hx.2⟩
  · rw [if_neg hc] at hx
    exact absurd hx (List.not_mem_nil x)

theorem mem_oldKept_of {new_events_df cdf : EventFrame} {cutoff : Int} {x : Event}
    (hcols : cdf.hasCols = true) (hcuid : cdf.hasUid = true)
    (hx : x ∈ cdf.rows) (hstart : x.start < cutoff)
    (habs : x.uid ∉ new_events_df.rows.map (fun e => e.uid)) :
    x ∈ oldKept new_events_df cdf cutoff := by
  have hne : cdf.rows ≠ [] := List.ne_nil_of_mem hx
  have hc : (!cdf.isEmpty && cdf.hasUid) = true := by
    simp [EventFrame.isEmpty, hcols, hcuid, hne]
  unfold oldKept
  rw [if_pos hc]
  simp only [List.mem_filter, decide_eq_true_eq]
  exact ⟨⟨hx, hstart⟩, habs⟩

/-! ## C5 — bounded reconciliation cutoff -/

/-- Claim C5: with a uid-carrying non-empty fresh fetch and a uid-carrying
cache, a cached event whose uid is absent from the fresh fetch is removed
when its start is at or after `now - cutoff_days` days, and retained when
its start is before that cutoff. -/
theorem c5_bounded_cutoff (new_events_df cdf : EventFrame) (now cutoff_days : Int)
    (e : Event) (r : EventFrame) (f2 : CacheFile)
    (hu : new_events_df.hasUid = true)
    (hcols : cdf.hasCols = true) (hcuid : cdf.hasUid = true)
    (hne : new_events_df.rows ≠ [])
    (he : e ∈ cdf.rows)
    (habs : e.uid ∉ new_events_df.rows.map (fun x => x.uid))
    (hr : update_event_store new_events_df (CacheFile.good cdf) now cutoff_days =
            Except.ok (r, f2)) :
    (now - cutoff_days * 86400 ≤ e.start → e ∉ r.rows) ∧
    (e.start < now - cutoff_days * 86400 → e ∈ r.rows) := by
  rw [update_event_store_uid_eq new_events_df (CacheFile.good cdf) cdf now cutoff_days rfl hu]
    at hr
  have hr' := Except.ok.inj hr
  have hr1 : (⟨true, true,
      oldKept new_events_df cdf (now - cutoff_days * 86400) ++ new_events_df.rows⟩ :
        EventFrame) = r := congrArg Prod.fst hr'
  constructor
  · intro hcut hmem
    rw [← hr1] at hmem
    rcases List.mem_append.mp hmem with hmem | hmem
    · have := (mem_oldKept hmem).2.1
      omega
    · exact habs (List.mem_map_of_mem _ hmem)
  · intro hlt
    rw [← hr1]
    exact List.mem_append.mpr
      (Or.inl (mem_oldKept_of hcols hcuid he hlt habs))

/-- Witness for C5: now = day 100, cutoff 30 days (so cutoff = day 70); the
cached event starting day 80 and absent from the fresh fetch is removed, the
one starting day 10 is retained. -/
theorem c5_bounded_cutoff_witness :
    (⟨"A", "a", 6912000, 6915600⟩ : Event) ∉
      ([⟨"B", "b", 864000, 867600⟩, ⟨"X", "x", 8500000, 8503600⟩] : List Event) ∧
    (⟨"B", "b", 864000, 867600⟩ : Event) ∈
      ([⟨"B", "b", 864000, 867600⟩, ⟨"X", "x", 8500000, 8503600⟩] : List Event) := by
  have hA := c5_bounded_cutoff ⟨true, true, [⟨"X", "x", 8500000, 8503600⟩]⟩
    ⟨true, true, [⟨"A", "a", 6912000, 6915600⟩, ⟨"B", "b", 864000, 867600⟩]⟩
    8640000 30 ⟨"A", "a", 6912000, 6915600⟩
    ⟨true, true, [⟨"B", "b", 864000, 867600⟩, ⟨"X", "x", 8500000, 8503600⟩]⟩
    (CacheFile.good ⟨true, true,
      [⟨"B", "b", 864000, 867600⟩, ⟨"X", "x", 8500000, 8503600⟩]⟩)
    rfl rfl rfl (by decide) (by decide) (by decide) rfl
  have hB := c5_bounded_cutoff ⟨true, true, [⟨"X", "x", 8500000, 8503600⟩]⟩
    ⟨true, true, [⟨"A", "a", 6912000, 6915600⟩, ⟨"B", "b", 864000, 867600⟩]⟩
    8640000 30 ⟨"B", "b", 864000, 867600⟩
    ⟨true, true, [⟨"B", "b", 864000, 867600⟩, ⟨"X", "x", 8500000, 8503600⟩]⟩
    (CacheFile.good ⟨true, true,
      [⟨"B", "b", 864000, 867600⟩, ⟨"X", "x", 8500000, 8503600⟩]⟩)
    rfl rfl rfl (by decide) (by decide) (by decide) rfl
  exact ⟨hA.1 (by decide), hB.2 (by decide)⟩

/-! ## C4 — uid uniqueness invariant -/

theorem nonEmptyUids_append (l1 l2 : List Event) :
    nonEmptyUids (l1 ++ l2) = nonEmptyUids l1 ++ nonEmptyUids l2 := by
  simp [nonEmptyUids]

theorem countUid_append (l1 l2 : List Event) (u : String) :
    countUid (l1 ++ l2) u = countUid l1 u + countUid l2 u := by
  simp [countUid]

theorem oldKept_sublist (new_events_df cdf : EventFrame) (cutoff : Int) :
    List.Sublist (oldKept new_events_df cdf cutoff) cdf.rows := by
  unfold oldKept
  split
  · exact (List.filter_sublist _).trans (List.filter_sublist _)
  · exact List.nil_sublist _

/-- Claim C4, counterexample: a cache already holding two old events with
the same non-empty uid `Y`, reconciled against a fresh fetch with the single
uid `X`, yields a set in which uid `Y` still occurs twice — the claimed
universal uniqueness over every cached record set fails. -/
theorem c4_counterexample :
    (update_event_store ⟨true, true, [⟨"X", "x", 8500000, 8503600⟩]⟩
        (CacheFile.good ⟨true, true,
          [⟨"Y", "a", 0, 3600⟩, ⟨"Y", "b", 86400, 90000⟩]⟩) 8640000 30).map
        (fun p => p.1.rows) =
      Except.ok [⟨"Y", "a", 0, 3600⟩, ⟨"Y", "b", 86400, 90000⟩,
        ⟨"X", "x", 8500000, 8503600⟩] ∧
    ¬ noDupUid [⟨"Y", "a", 0, 3600⟩, ⟨"Y", "b", 86400, 90000⟩,
        ⟨"X", "x", 8500000, 8503600⟩] := by
  constructor
  · rfl
  · decide

/-- Claim C4 (amended): when the cached set itself satisfies the uniqueness
invariant and the fresh fetch carries pairwise distinct non-empty uids, the
reconciled set satisfies it too; moreover every fresh uid occurs in the
result exactly as often as in the fresh fetch (so a refreshed uid survives
exactly once, the old copy replaced). -/
theorem c4_uid_uniqueness (new_events_df cdf : EventFrame) (now cutoff_days : Int)
    (r : EventFrame) (f2 : CacheFile)
    (hu : new_events_df.hasUid = true)
    (h1 : noDupUid cdf.rows) (h2 : noDupUid new_events_df.rows)
    (hr : update_event_store new_events_df (CacheFile.good cdf) now cutoff_days =
            Except.ok (r, f2)) :
    noDupUid r.rows ∧
    ∀ u, u ∈ new_events_df.rows.map (fun x => x.uid) →
      countUid r.rows u = countUid new_events_df.rows u := by
  rw [update_event_store_uid_eq new_events_df (CacheFile.good cdf) cdf now cutoff_days
    rfl hu] at hr
  have hr1 : (⟨true, true,
      oldKept new_events_df cdf (now - cutoff_days * 86400) ++ new_events_df.rows⟩ :
        EventFrame) = r := congrArg Prod.fst (Except.ok.inj hr)
  subst hr1
  constructor
  · show noDupUid (oldKept new_events_df cdf (now - cutoff_days * 86400) ++
      new_events_df.rows)
    unfold noDupUid
    rw [nonEmptyUids_append, List.nodup_append]
    refine ⟨?_, h2, ?_⟩
    · have hs : List.Sublist
          (nonEmptyUids (oldKept new_events_df cdf (now - cutoff_days * 86400)))
          (nonEmptyUids cdf.rows) :=
        ((oldKept_sublist new_events_df cdf _).map _).filter _
      exact hs.nodup h1
    · intro a haK haN
      simp only [nonEmptyUids, List.mem_filter, List.mem_map, decide_eq_true_eq] at haK haN
      obtain ⟨⟨x, hxK, hxa⟩, -⟩ := haK
      obtain ⟨⟨y, hyN, hya⟩, -⟩ := haN
      exact (mem_oldKept hxK).2.2 (List.mem_map.mpr ⟨y, hyN, by rw [hya, ← hxa]⟩)
  · intro u hu'
    show countUid (oldKept new_events_df cdf (now - cutoff_days * 86400) ++
      new_events_df.rows) u = countUid new_events_df.rows u
    rw [countUid_append]
    have hz : countUid (oldKept new_events_df cdf (now - cutoff_days * 86400)) u = 0 := by
      unfold countUid
      rw [List.length_eq_zero, List.filter_eq_nil_iff]
      intro x hxK
      simp only [decide_eq_true_eq]
      intro hxu
      exact (mem_oldKept hxK).2.2 (hxu ▸ hu')
    rw [hz, Nat.zero_add]

/-- Witness for C4, on the §8 replacement scenario: fresh fetch with uid `X`
against a cache holding an older uid-`X` event — the reconciled set has no
duplicate uid and exactly one uid-`X` row. -/
theorem c4_uid_uniqueness_witness :
    noDupUid [⟨"X", "x", 8500000, 8503600⟩] ∧
    countUid [⟨"X", "x", 8500000, 8503600⟩] "X" =
      countUid [⟨"X", "x", 8500000, 8503600⟩] "X" := by
  have h := c4_uid_uniqueness ⟨true, true, [⟨"X", "x", 8500000, 8503600⟩]⟩
    ⟨true, true, [⟨"X", "old", 0, 3600⟩]⟩ 8640000 30
    ⟨true, true, [⟨"X", "x", 8500000, 8503600⟩]⟩
    (CacheFile.good ⟨true, true, [⟨"X", "x", 8500000, 8503600⟩]⟩)
    rfl (by decide) (by decide) rfl
  exact ⟨h.1, h.2 "X" (by decide)⟩

/-! ## C8 — idempotence of reconciliation -/

theorem oldKept_append_self (new_events_df : EventFrame) (K : List Event) (cutoff : Int)
    (hK : ∀ x ∈ K, x.start < cutoff ∧
      x.uid ∉ new_events_df.rows.map (fun e => e.uid))
    (hne : K ++ new_events_df.rows ≠ []) :
    oldKept new_events_df ⟨true, true, K ++ new_events_df.rows⟩ cutoff = K := by
  have hc : ((!(⟨true, true, K ++ new_events_df.rows⟩ : EventFrame).isEmpty) &&
      (⟨true, true, K ++ new_events_df.rows⟩ : EventFrame).hasUid) = true := by
    simp [EventFrame.isEmpty, hne]
  unfold oldKept
  rw [if_pos hc]
  show ((K ++ new_events_df.rows).filter _).filter _ = K
  rw [List.filter_append, List.filter_append]
  have hKp : K.filter (fun e => decide (e.start < cutoff)) = K :=
    List.filter_eq_self.mpr (fun x hx => decide_eq_true (hK x hx).1)
  have hKq : K.filter
      (fun e => decide (e.uid ∉ new_events_df.rows.map (fun x => x.uid))) = K :=
    List.filter_eq_self.mpr (fun x hx => decide_eq_true (hK x hx).2)
  have hNq : (new_events_df.rows.filter (fun e => decide (e.start < cutoff))).filter
      (fun e => decide (e.uid ∉ new_events_df.rows.map (fun x => x.uid))) = [] := by
    rw [List.filter_eq_nil_iff]
    intro x hx
    have hx' : x ∈ new_events_df.rows := (List.mem_filter.mp hx).1
    simp only [decide_eq_true_eq]
    intro hmem
    exact hmem (List.mem_map_of_mem _ hx')
  rw [hKp, hKq, hNq, List.append_nil]

/-- Claim C8: reconciling the same uid-carrying fresh frame a second time,
with the clock held fixed, returns the same reconciled frame and the same
persisted cache state as the first reconciliation. -/
theorem c8_idempotent (new_events_df : EventFrame) (file : CacheFile)
    (now cutoff_days : Int) (r1 : EventFrame) (f1 : CacheFile)
    (hu : new_events_df.hasUid = true)
    (h1 : update_event_store new_events_df file now cutoff_days = Except.ok (r1, f1)) :
    update_event_store new_events_df f1 now cutoff_days = Except.ok (r1, f1) := by
  cases hload : load_cached_events file with
  | error u =>
      rw [update_event_store_error new_events_df file now cutoff_days u hload] at h1
      exact absurd h1 (by simp)
  | ok cdf =>
      rw [update_event_store_uid_eq new_events_df file cdf now cutoff_days hload hu] at h1
      have h1' := Except.ok.inj h1
      have hr1 : (⟨true, true, oldKept new_events_df cdf (now - cutoff_days * 86400)
          ++ new_events_df.rows⟩ : EventFrame) = r1 := congrArg Prod.fst h1'
      have hf1 : save_events_to_cache
          ⟨true, true, oldKept new_events_df cdf (now - cutoff_days * 86400)
            ++ new_events_df.rows⟩ file = f1 := congrArg Prod.snd h1'
      by_cases hemp : (oldKept new_events_df cdf (now - cutoff_days * 86400)
          ++ new_events_df.rows) = []
      · have hfile : f1 = file := by
          rw [← hf1]
          simp [save_events_to_cache, hemp]
        rw [hfile] at h1 ⊢
        rw [update_event_store_uid_eq new_events_df file cdf now cutoff_days hload hu]
        exact h1
      · have hf1' : f1 = CacheFile.good ⟨true, true,
            oldKept new_events_df cdf (now - cutoff_days * 86400)
              ++ new_events_df.rows⟩ := by
          rw [← hf1]
          simp [save_events_to_cache, hemp]
        rw [hf1', update_event_store_uid_eq new_events_df
          (CacheFile.good ⟨true, true,
            oldKept new_events_df cdf (now - cutoff_days * 86400)
              ++ new_events_df.rows⟩)
          ⟨true, true, oldKept new_events_df cdf (now - cutoff_days * 86400)
            ++ new_events_df.rows⟩
          now cutoff_days rfl hu]
        have hoc : oldKept new_events_df
            ⟨true, true, oldKept new_events_df cdf (now - cutoff_days * 86400)
              ++ new_events_df.rows⟩ (now - cutoff_days * 86400)
            = oldKept new_events_df cdf (now - cutoff_days * 86400) :=
          oldKept_append_self new_events_df _ _
            (fun x hx => ⟨(mem_oldKept hx).2.1, (mem_oldKept hx).2.2⟩) hemp
        rw [hoc, ← hr1]
        have hsave : save_events_to_cache
            ⟨true, true, oldKept new_events_df cdf (now - cutoff_days * 86400)
              ++ new_events_df.rows⟩
            (CacheFile.good ⟨true, true,
              oldKept new_events_df cdf (now - cutoff_days * 86400)
                ++ new_events_df.rows⟩) =
            CacheFile.good ⟨true, true,
              oldKept new_events_df cdf (now - cutoff_days * 86400)
                ++ new_events_df.rows⟩ := by
          simp [save_events_to_cache, hemp]
        rw [hsave, ← hf1']

/-- Witness for C8: a fresh fetch of one uid-carrying event against a missing
cache; re-reconciling against the resulting cache returns the same pair. -/
theorem c8_idempotent_witness :
    update_event_store ⟨true, true, [⟨"X", "x", 8500000, 8503600⟩]⟩
        (CacheFile.good ⟨true, true, [⟨"X", "x", 8500000, 8503600⟩]⟩) 8640000 30 =
      Except.ok (⟨true, true, [⟨"X", "x", 8500000, 8503600⟩]⟩,
        CacheFile.good ⟨true, true, [⟨"X", "x", 8500000, 8503600⟩]⟩) :=
  c8_idempotent ⟨true, true, [⟨"X", "x", 8500000, 8503600⟩]⟩ CacheFile.missing
    8640000 30 ⟨true, true, [⟨"X", "x", 8500000, 8503600⟩]⟩
    (CacheFile.good ⟨true, true, [⟨"X", "x", 8500000, 8503600⟩]⟩) rfl rfl

/-! ## C2 — apportionment conserves duration -/

theorem calculate_time_proportion_nonneg (a b ps pe : Int) :
    0 ≤ calculate_time_proportion a b ps pe := by
  simp only [calculate_time_proportion]
  split
  · exact le_refl 0
  · rename_i h
    apply div_nonneg _ (by norm_num)
    have h' : (0 : Int) ≤ min b pe - max a ps := by omega
    exact_mod_cast h'

theorem calculate_time_proportion_eq_zero (a b ps pe : Int)
    (h : pe ≤ a ∨ b ≤ ps) : calculate_time_proportion a b ps pe = 0 := by
  simp only [calculate_time_proportion]
  have hle : min b pe ≤ max a ps := by
    rcases h with h | h
    · exact le_trans (min_le_right _ _) (le_trans h (le_max_left _ _))
    · exact le_trans (min_le_left _ _) (le_trans h (le_max_right _ _))
  rw [if_pos hle]

theorem calculate_time_proportion_full (a b ps pe : Int)
    (hps : ps ≤ a) (hab : a ≤ b) (hpe : b ≤ pe) :
    calculate_time_proportion a b ps pe = ((b - a : Int) : ℚ) / 3600 := by
  simp only [calculate_time_proportion]
  rw [max_eq_left hps, min_eq_left hpe]
  by_cases h : b ≤ a
  · have hab' : a = b := le_antisymm hab h
    subst hab'
    simp
  · rw [if_neg h]

/-- The `duration > 0` emission guard does not change the per-event sum:
records are dropped exactly when the proportion is zero. -/
theorem totalOverlapHours_eq_sum (s e : Int) (days : List Int) :
    totalOverlapHours s e days =
      (days.map (fun d =>
        calculate_time_proportion s e (dayPeriodStart d) (dayPeriodEnd d))).sum := by
  unfold totalOverlapHours dayRecords
  induction days with
  | nil => rfl
  | cons d t ih =>
      by_cases h : 0 < calculate_time_proportion s e (dayPeriodStart d) (dayPeriodEnd d)
      · simp only [List.filterMap_cons, List.map_cons, List.sum_cons, if_pos h] at ih ⊢
        rw [ih]
      · have h0 : calculate_time_proportion s e (dayPeriodStart d) (dayPeriodEnd d) = 0 :=
          le_antisymm (not_lt.mp h) (calculate_time_proportion_nonneg s e _ _)
        simp only [List.filterMap_cons, List.map_cons, List.sum_cons, if_neg h] at ih ⊢
        rw [ih, h0, zero_add]

theorem sum_map_eq_single (g : Int → ℚ) (D : Int) (l : List Int)
    (h0 : ∀ d ∈ l, d ≠ D → g d = 0) (h1 : l.count D = 1) :
    (l.map g).sum = g D := by
  induction l with
  | nil => simp at h1
  | cons a t ih =>
      by_cases ha : a = D
      · subst ha
        rw [List.count_cons_self] at h1
        have ht : a ∉ t := List.count_eq_zero.mp (by omega)
        have hts : (t.map g).sum = 0 := by
          apply List.sum_eq_zero
          intro x hx
          obtain ⟨d, hd, rfl⟩ := List.mem_map.mp hx
          exact h0 d (List.mem_cons_of_mem _ hd) (fun hda => ht (hda ▸ hd))
        rw [List.map_cons, List.sum_cons, hts, add_zero]
      · rw [List.count_cons_of_ne (fun hDa => ha hDa.symm) t] at h1
        rw [List.map_cons, List.sum_cons,
          h0 a (List.mem_cons_self a t) ha, zero_add]
        exact ih (fun d hd => h0 d (List.mem_cons_of_mem _ hd)) h1

theorem count_daysInRange (d0 d1 D : Int) (h0 : d0 ≤ D) (h1 : D ≤ d1) :
    (daysInRange d0 d1).count D = 1 := by
  have hnodup : (daysInRange d0 d1).Nodup := by
    unfold daysInRange
    refine (List.nodup_range _).map ?_
    intro i j hij
    have hij' : d0 + (i : Int) = d0 + (j : Int) := hij
    omega
  have hmem : D ∈ daysInRange d0 d1 := by
    unfold daysInRange
    rw [List.mem_map]
    refine ⟨(D - d0).toNat, List.mem_range.mpr (by omega), by omega⟩
  exact List.count_eq_one_of_mem hnodup hmem

/-- Claim C2, counterexample: the event 23:00 of day 0 to 02:00 of day 1
lies entirely inside the two-day window, but the day periods end at
23:59:59, so the second from 23:59:59 to midnight is never apportioned: the
emitted hours sum to 10799/3600, one second short of the 3-hour duration —
an error of 1/3600 h, far beyond the claimed 1e-6 tolerance. -/
theorem c2_counterexample :
    totalOverlapHours 82800 93600 (daysInRange 0 1) ≠
      ((93600 - 82800 : Int) : ℚ) / 3600 ∧
    1 / 1000000 <
      |((93600 - 82800 : Int) : ℚ) / 3600 -
        totalOverlapHours 82800 93600 (daysInRange 0 1)| := by
  have hd : daysInRange 0 1 = [0, 1] := rfl
  have ec0 : calculate_time_proportion 82800 93600 (dayPeriodStart 0) (dayPeriodEnd 0) =
      3599 / 3600 := by
    simp only [calculate_time_proportion, dayPeriodStart, dayPeriodEnd]
    norm_num [min_def, max_def]
  have ec1 : calculate_time_proportion 82800 93600 (dayPeriodStart 1) (dayPeriodEnd 1) =
      2 := by
    simp only [calculate_time_proportion, dayPeriodStart, dayPeriodEnd]
    norm_num [min_def, max_def]
  have ht : totalOverlapHours 82800 93600 (daysInRange 0 1) = 3599 / 3600 + 2 := by
    rw [totalOverlapHours_eq_sum, hd, List.map_cons, List.map_cons, List.map_nil,
      List.sum_cons, List.sum_cons, List.sum_nil, ec0, ec1]
    ring
  rw [ht]
  constructor
  · norm_num
  · have habs : ((93600 - 82800 : Int) : ℚ) / 3600 - (3599 / 3600 + 2) = 1 / 3600 := by
      norm_num
    rw [habs, abs_of_pos (by norm_num)]
    norm_num

/-- Claim C2 (amended): for an event inside the window that lies within a
single day bucket (it ends no later than that day's 23:59:59), the emitted
`overlap_hours` sum exactly to its `duration_hours`. -/
theorem c2_single_day_sum (d0 d1 D s e : Int)
    (hd0 : d0 ≤ D) (hd1 : D ≤ d1)
    (hs : dayPeriodStart D ≤ s) (hse : s ≤ e) (he : e ≤ dayPeriodEnd D) :
    totalOverlapHours s e (daysInRange d0 d1) = ((e - s : Int) : ℚ) / 3600 := by
  have hz : ∀ d ∈ daysInRange d0 d1, d ≠ D →
      calculate_time_proportion s e (dayPeriodStart d) (dayPeriodEnd d) = 0 := by
    intro d _ hne
    apply calculate_time_proportion_eq_zero
    simp only [dayPeriodStart, dayPeriodEnd] at hs he ⊢
    rcases lt_or_gt_of_ne hne with h | h
    · left
      omega
    · right
      omega
  rw [totalOverlapHours_eq_sum,
    sum_map_eq_single _ D _ hz (count_daysInRange d0 d1 D hd0 hd1)]
  exact calculate_time_proportion_full s e _ _ hs hse he

/-- Witness for C2: a 10:00–12:00 event on day 0 of a two-day window is
apportioned exactly 2 hours. -/
theorem c2_single_day_sum_witness :
    totalOverlapHours 36000 43200 (daysInRange 0 1) =
      ((43200 - 36000 : Int) : ℚ) / 3600 :=
  c2_single_day_sum 0 1 0 36000 43200 (by decide) (by decide) (by decide)
    (by decide) (by decide)

/-! ## C6 — bucket generation -/

/-- Claim C6, counterexample: at day granularity the two buckets of a
two-day window are closed intervals ending at second 86399 (23:59:59) while
the next bucket starts at 86400 — the first bucket's end is not the second
bucket's start, so the buckets are not half-open intervals tiling the window
gap-free. -/
theorem c6_counterexample :
    dayBuckets 0 1 = [(0, 86399), (86400, 172799)] ∧ (86399 : Int) ≠ 86400 := by
  constructor
  · rfl
  · decide

/-- Claim C6 (amended, day granularity): the bucket list has one bucket per
day of the window in chronological order; bucket `i` is the closed interval
from midnight of day `d0 + i` to 23:59:59 of that day, so consecutive
buckets are disjoint but separated by a one-second gap (the next bucket
starts one second after the previous ends) instead of forming a half-open
gap-free tiling. -/
theorem c6_day_buckets (d0 d1 : Int) :
    (dayBuckets d0 d1).length = (d1 - d0 + 1).toNat ∧
    (∀ i, (hi : i < (dayBuckets d0 d1).length) →
      (dayBuckets d0 d1).get ⟨i, hi⟩ =
        ((d0 + (i : Int)) * 86400, (d0 + (i : Int)) * 86400 + 86399)) ∧
    (∀ i, (hi : i + 1 < (dayBuckets d0 d1).length) →
      ((dayBuckets d0 d1).get ⟨i + 1, hi⟩).1 =
        ((dayBuckets d0 d1).get ⟨i, Nat.lt_of_succ_lt hi⟩).2 + 1) := by
  have hget : ∀ i, (hi : i < (dayBuckets d0 d1).length) →
      (dayBuckets d0 d1).get ⟨i, hi⟩ =
        ((d0 + (i : Int)) * 86400, (d0 + (i : Int)) * 86400 + 86399) := by
    intro i hi
    rw [List.get_eq_getElem]
    simp only [dayBuckets, daysInRange, dayPeriodStart, dayPeriodEnd,
      List.getElem_map, List.getElem_range]
  refine ⟨by simp [dayBuckets, daysInRange], hget, ?_⟩
  intro i hi
  rw [hget (i + 1) hi, hget i (Nat.lt_of_succ_lt hi)]
  push_cast
  ring
